import Mathlib

/-!
Verification of the RAG chat pipeline of the case-taxonomy backend.

The definitions below are a shallow embedding of
`src/backend/src/openai.ts` (generateEmbedding, buildCaseEmbeddingText,
chatCompletion) and `src/backend/src/functions/chat.ts` (chatHandler,
createCase, updateCase).  External collaborators (the Postgres store and
the Azure OpenAI HTTP endpoints) are modelled as oracle inputs: the
outcome of each outbound call is an explicit parameter, and the SQL
queries issued by the handlers are embedded as list transformations with
the documented semantics of their WHERE / ORDER BY / LIMIT clauses.
Machine floats only occur inside the opaque embedding vectors; the code
never computes with them beyond the length test `embedding.length > 0`,
and the distance ordering is performed by pgvector, so vectors are
modelled as lists of rationals and the cosine-distance operator as an
oracle function parameter.
-/

namespace CxpCases

/-- An embedding vector as stored in the `embedding vector(1536)` column:
the code only ever inspects its length and hands it to pgvector. -/
abbrev Vec := List ℚ

/-- One row of the `cases` table (`database.ts` lines 113-175), restricted
to the columns the chat pipeline reads.  `case_id` is `UNIQUE NOT NULL` in
the schema; `embedding` is nullable; `created_at` drives the recency
ordering. -/
structure CaseRecord where
  case_id : String
  ta_name : String
  ta_reviewer_notes : String
  case_type : String
  issue_type : String
  fqr_accurate : String
  fqr_help_resolve : String
  idle_over_8_hours : Bool
  idleness_reason : String
  collab_wait_reason : String
  pg_wait_reason : String
  case_complexity : String
  icm_linked : Bool
  next_action_sna : String
  source_of_resolution : String
  embedding : Option Vec
  created_at : Nat
  deriving DecidableEq, Repr

/-- A record with every text field empty and every flag false, as a JS
request body with all fields missing would produce. -/
def emptyCase : CaseRecord :=
  { case_id := "", ta_name := "", ta_reviewer_notes := "", case_type := ""
    issue_type := "", fqr_accurate := "", fqr_help_resolve := ""
    idle_over_8_hours := false, idleness_reason := "", collab_wait_reason := ""
    pg_wait_reason := "", case_complexity := "", icm_linked := false
    next_action_sna := "", source_of_resolution := "", embedding := none
    created_at := 0 }

/-- The JS `String.prototype.trim()` used on incoming request fields:
drops whitespace from both ends. -/
def jsTrim (s : String) : String :=
  ⟨((s.data.dropWhile Char.isWhitespace).reverse.dropWhile Char.isWhitespace).reverse⟩

/-- Constant `TOP_K_CASES` (`chat.ts` line 23). -/
def TOP_K_CASES : Nat := 10

/-- Constant `SIMILARITY_THRESHOLD` (`chat.ts` line 26): declared, and — as proved
below — never applied anywhere in the pipeline. -/
def SIMILARITY_THRESHOLD : ℚ := 0.8

/-- Constant `MAX_MESSAGE_LENGTH` (`chat.ts` line 29). -/
def MAX_MESSAGE_LENGTH : Nat := 2000

/-- Constant `MAX_RETRIES` (`openai.ts` line 71). -/
def MAX_RETRIES : Nat := 5

/-- From `buildCaseEmbeddingText` (`openai.ts` lines 147-167): the labelled
parts list before `.filter(Boolean)`.  A JS template literal
`` `Label: ${x || ""}` `` always emits the label; the five conditional
entries collapse to the empty string when their field is falsy. -/
def caseEmbeddingParts (c : CaseRecord) : List String :=
  [ "Case ID: " ++ c.case_id,
    "TA Name: " ++ c.ta_name,
    "Case Type: " ++ c.case_type,
    "Issue Type: " ++ c.issue_type,
    "FQR Accurate: " ++ c.fqr_accurate,
    "FQR Help Resolve: " ++ c.fqr_help_resolve,
    "Idle Over 8 Hours: " ++ (if c.idle_over_8_hours then "Yes" else "No"),
    (if c.idleness_reason ≠ "" then "Idleness Reason: " ++ c.idleness_reason else ""),
    (if c.collab_wait_reason ≠ "" then "Collab Wait Reason: " ++ c.collab_wait_reason else ""),
    (if c.pg_wait_reason ≠ "" then "PG Wait Reason: " ++ c.pg_wait_reason else ""),
    "Case Complexity: " ++ c.case_complexity,
    "ICM Linked: " ++ (if c.icm_linked then "Yes" else "No"),
    "Source of Resolution: " ++ c.source_of_resolution,
    (if c.ta_reviewer_notes ≠ "" then "Reviewer Notes: " ++ c.ta_reviewer_notes else ""),
    (if c.next_action_sna ≠ "" then "SNA: " ++ c.next_action_sna else "") ]

/-- Function `buildCaseEmbeddingText` (`openai.ts` lines 147-167):
`parts.filter(Boolean).join(". ")`. -/
def buildCaseEmbeddingText (c : CaseRecord) : String :=
  String.intercalate ". " ((caseEmbeddingParts c).filter (fun p => p ≠ ""))

/-! ## Postgres query semantics

The three retrieval queries of `chat.ts` all end in `ORDER BY ... LIMIT k`.
We embed `ORDER BY` as an insertion sort by a boolean `le` relation and
`LIMIT` as `List.take`; ties are left in table order, matching the fact
that Postgres guarantees nothing about equal keys. -/

/-- Insert `a` before the first element `b` with `le a b = true`. -/
def insertLe (le : α → α → Bool) (a : α) : List α → List α
  | [] => [a]
  | b :: l => if le a b then a :: b :: l else b :: insertLe le a l

/-- Insertion sort by `le`. -/
def sortLe (le : α → α → Bool) : List α → List α
  | [] => []
  | a :: l => insertLe le a (sortLe le l)

/-- Ordering `ORDER BY created_at DESC`. -/
def byRecency (a b : CaseRecord) : Bool := decide (b.created_at ≤ a.created_at)

/-- The cosine distance of a (query, record) pair, as computed by the
pgvector `<=>` operator; `dist` is the operator itself, an external
collaborator passed in as an oracle.  Records reaching this function have
already passed `WHERE embedding IS NOT NULL`, so the `none` branch is
unreachable. -/
def recDist (dist : Vec → Vec → ℚ) (q : Vec) (r : CaseRecord) : ℚ :=
  match r.embedding with
  | some v => dist q v
  | none => 0

/-- The vector-tier SQL (`chat.ts` lines 89-102):
`WHERE embedding IS NOT NULL ORDER BY embedding <=> $1 LIMIT TOP_K_CASES`.
Note: no similarity cutoff appears in the query. -/
def vectorQuery (dist : Vec → Vec → ℚ) (q : Vec) (db : List CaseRecord) : List CaseRecord :=
  (sortLe (fun a b => decide (recDist dist q a ≤ recDist dist q b))
    (db.filter (fun r => r.embedding.isSome))).take TOP_K_CASES

/-- The keyword-tier SQL (`chat.ts` lines 115-134):
`WHERE to_tsvector(...) @@ plainto_tsquery($1) ORDER BY created_at DESC
LIMIT TOP_K_CASES`.  The full-text predicate is evaluated by Postgres, so
it enters as the oracle `fts`. -/
def keywordQuery (fts : String → CaseRecord → Bool) (msg : String)
    (db : List CaseRecord) : List CaseRecord :=
  (sortLe byRecency (db.filter (fts msg))).take TOP_K_CASES

/-- The recency-tier SQL (`chat.ts` lines 146-157):
`ORDER BY created_at DESC LIMIT TOP_K_CASES`. -/
def recencyQuery (db : List CaseRecord) : List CaseRecord :=
  (sortLe byRecency db).take TOP_K_CASES

/-! ## The three-tier retrieval fallback (`chat.ts` lines 84-163) -/

/-- Whether each of the three `queryWithRetry` calls, if issued, succeeds
or throws; a `false` flag models the corresponding `catch` branch firing. -/
structure RetEnv where
  vectorOk : Bool
  keywordOk : Bool
  recencyOk : Bool
  deriving DecidableEq, Repr

/-- The tier whose rows ended up in `relevantCases` (provenance of the
result: which branch of `chat.ts` last assigned it). -/
inductive Tier where
  | vector
  | keyword
  | recency
  | noCases
  deriving DecidableEq, Repr

/-- Result of the retrieval phase: the final `relevantCases`, its
provenance, and one flag per tier recording whether the query of that tier was
issued to the store (the corresponding `queryWithRetry` call reached). -/
structure RetResult where
  candidates : List CaseRecord
  tier : Tier
  vectorIssued : Bool
  keywordIssued : Bool
  recencyIssued : Bool
  deriving DecidableEq, Repr

/-- The value `relevantCases` holds after the vector-tier block
(`chat.ts` lines 86-108): the query is guarded by
`queryEmbedding.length > 0`, and a throwing query leaves the list empty. -/
def tier1 (dist : Vec → Vec → ℚ) (q : Vec) (db : List CaseRecord) (env : RetEnv) :
    List CaseRecord :=
  if 0 < q.length then (if env.vectorOk then vectorQuery dist q db else []) else []

/-- The rows the keyword-tier block would contribute (`chat.ts` lines
111-141): guarded by `userMessage.length > 2` inside the `try`, and a
throwing query contributes nothing. -/
def tier2 (fts : String → CaseRecord → Bool) (msg : String) (db : List CaseRecord)
    (env : RetEnv) : List CaseRecord :=
  if 2 < msg.length then (if env.keywordOk then keywordQuery fts msg db else []) else []

/-- The rows the recency-tier block would contribute (`chat.ts` lines
144-163). -/
def tier3 (db : List CaseRecord) (env : RetEnv) : List CaseRecord :=
  if env.recencyOk then recencyQuery db else []

/-- The retrieval fallback chain of `chatHandler` (`chat.ts` lines
84-163): tier 2 only runs when `relevantCases.length === 0` after tier 1,
tier 3 only when it is still empty after tier 2. -/
def retrieve (dist : Vec → Vec → ℚ) (fts : String → CaseRecord → Bool)
    (msg : String) (q : Vec) (db : List CaseRecord) (env : RetEnv) : RetResult :=
  let c1 := tier1 dist q db env
  if c1 ≠ [] then
    ⟨c1, Tier.vector, decide (0 < q.length), false, false⟩
  else
    let c2 := tier2 fts msg db env
    if c2 ≠ [] then
      ⟨c2, Tier.keyword, decide (0 < q.length), decide (2 < msg.length), false⟩
    else
      let c3 := tier3 db env
      ⟨c3, if c3 ≠ [] then Tier.recency else Tier.noCases,
        decide (0 < q.length), decide (2 < msg.length), true⟩

/-! ## `generateEmbedding` (`openai.ts` lines 81-141)

Each loop iteration performs one HTTP attempt; the outcome of attempt `i`
is supplied by the oracle `outs i` (1-indexed, like the loop variable).
`fetch` rejections carry a JS error code; a non-ok HTTP response is
thrown inside the `try` as an `Error` without a code. -/

/-- Outcome of one outbound HTTP attempt against the embedding endpoint. -/
inductive EmbAttempt where
  /-- HTTP 429: loop `continue`s after a delay. -/
  | rateLimited
  /-- Non-ok, non-429 HTTP status: `throw new Error(...)` (no `code`). -/
  | httpError (status : Nat) (body : String)
  /-- `fetch` rejected with a JS error carrying `code`. -/
  | netError (code : String)
  /-- HTTP 200 with an embedding payload. -/
  | ok (v : Vec)
  deriving DecidableEq, Repr

/-- The retry loop of `generateEmbedding`, recursing on the number of
attempts left; `attempt = MAX_RETRIES - left + 1`.  `Except.error` models
an exception escaping to the caller. -/
def embedLoop (outs : Nat → EmbAttempt) : Nat → Except String Vec
  | 0 => Except.ok []
  | left + 1 =>
    let attempt := MAX_RETRIES - left
    match outs attempt with
    | EmbAttempt.rateLimited => embedLoop outs left
    | EmbAttempt.ok v => Except.ok v
    | EmbAttempt.httpError s _ =>
      if left = 0 then Except.ok []
      else Except.error ("Azure OpenAI embedding request failed (" ++ toString s ++ ")")
    | EmbAttempt.netError code =>
      if left = 0 then Except.ok []
      else if code = "ECONNRESET" ∨ code = "ETIMEDOUT" then embedLoop outs left
      else Except.error code

/-- Function `generateEmbedding` (`openai.ts` lines 81-141): returns `[]` without
any outbound call when the endpoint/auth is not configured, otherwise
runs the retry loop. -/
def generateEmbedding (cfg : Bool) (outs : Nat → EmbAttempt) : Except String Vec :=
  if cfg then embedLoop outs MAX_RETRIES else Except.ok []

/-! ## `chatCompletion` (`openai.ts` lines 178-279) -/

/-- Outcome of one outbound HTTP attempt against the chat endpoint.
Inside the loop every throw — HTTP error or network error — lands in the
same generic `catch`, so one constructor with the raw upstream detail
suffices. -/
inductive GenAttempt where
  /-- HTTP 429: loop `continue`s after a delay. -/
  | rateLimited
  /-- Any thrown error (non-ok status or `fetch` rejection), with the
  upstream error text. -/
  | failed (detail : String)
  /-- HTTP 200; `content` is `choices[0]?.message?.content`, possibly
  absent. -/
  | ok (content : Option String)
  deriving DecidableEq, Repr

/-- The apology returned when the final attempt throws
(`openai.ts` line 269). -/
def APOLOGY_ERROR : String :=
  "I\x27m sorry, I encountered an error while processing your request. Please try again."

/-- The fallback returned when the loop exits with every attempt
rate-limited (`openai.ts` line 278). -/
def APOLOGY_EXHAUSTED : String :=
  "Unable to generate a response at this time. Please try again later."

/-- The string returned when the endpoint/auth is not configured
(`openai.ts` line 184). -/
def NOT_CONFIGURED : String :=
  "AI Assistant is not configured. Please contact your administrator."

/-- The retry loop of `chatCompletion`, recursing on attempts left. -/
def chatLoop (outs : Nat → GenAttempt) : Nat → String
  | 0 => APOLOGY_EXHAUSTED
  | left + 1 =>
    let attempt := MAX_RETRIES - left
    match outs attempt with
    | GenAttempt.rateLimited => chatLoop outs left
    | GenAttempt.ok content =>
      -- `content || "No response generated."`: absent AND empty content
      -- are both falsy in JS, so both map to the fallback.
      match content with
      | some c => if c = "" then "No response generated." else c
      | none => "No response generated."
    | GenAttempt.failed _ => if left = 0 then APOLOGY_ERROR else chatLoop outs left

/-- Function `chatCompletion` (`openai.ts` lines 178-279), restricted to the value
it returns.  It is total: every throw of an attempt is absorbed by the loop,
so the TS function never raises to its caller. -/
def chatCompletion (cfg : Bool) (outs : Nat → GenAttempt) : String :=
  if cfg then chatLoop outs MAX_RETRIES else NOT_CONFIGURED

/-- The history window of `chatCompletion`
(`openai.ts` line 227): `conversationHistory.slice(-6)`. -/
def historyWindow (history : List (String × String)) : List (String × String) :=
  history.drop (history.length - 6)

/-- The `messages` array sent to the model (`openai.ts` lines 225-229):
system prompt, then the trimmed history, then the user query. -/
def chatMessages (systemPrompt : String) (history : List (String × String))
    (userQuery : String) : List (String × String) :=
  ("system", systemPrompt) :: (historyWindow history ++ [("user", userQuery)])

/-! ## `createCase` (`chat.ts` lines 250-362) and `updateCase`
(`chat.ts` lines 525-636)

The embedding outcome is the oracle `embedOf : String → Except String Vec`:
the behaviour of `generateEmbedding` on each canonical text
(`Except.error` = the call threw; `Except.ok []` = it degraded to the
empty vector). -/

/-- Outcome of a create request: HTTP status and the resulting table. -/
structure CreateOutcome where
  status : Nat
  db : List CaseRecord
  deriving DecidableEq, Repr

/-- Function `createCase` (`chat.ts` lines 250-362), restricted to validation,
duplicate check, embedding handling and the INSERT.  The `try/catch`
around embedding generation (lines 298-305) maps `Except.error` to the
empty vector; the embedding text is built from the raw body (line 300,
with the untrimmed `case_id`) while the INSERT stores the trimmed id and
`NULL` when `embedding.length = 0` (line 318). -/
def createCase (db : List CaseRecord) (caseIdRaw : Option String) (body : CaseRecord)
    (embedOf : String → Except String Vec) (now : Nat) : CreateOutcome :=
  match caseIdRaw with
  | none => ⟨400, db⟩
  | some s =>
    let caseId := jsTrim s
    if caseId = "" then ⟨400, db⟩
    else if db.any (fun r => r.case_id = caseId) then ⟨409, db⟩
    else
      let emb : Vec :=
        match embedOf (buildCaseEmbeddingText { body with case_id := s }) with
        | Except.ok v => v
        | Except.error _ => []
      let newRec : CaseRecord :=
        { body with
          case_id := caseId
          embedding := if 0 < emb.length then some emb else none
          created_at := now }
      ⟨201, db ++ [newRec]⟩

/-- The row produced by the UPDATE statement for one matching row:
all taxonomy columns replaced from the body, `case_id` and `created_at`
untouched, `embedding` transformed by `newEmb` (identity when the SQL has
no `embedding = $18` clause). -/
def applyUpdate (body : CaseRecord) (newEmb : Option Vec → Option Vec)
    (r : CaseRecord) : CaseRecord :=
  { body with
    case_id := r.case_id
    created_at := r.created_at
    embedding := newEmb r.embedding }

/-- Function `updateCase` (`chat.ts` lines 525-636): 404 when no row matches;
otherwise the embedding is regenerated from the updated body
(`buildCaseEmbeddingText({ ...body, case_id: caseId })`, line 562) and
the `embedding` column is written only when regeneration produced a
non-empty vector — on a thrown error or an empty vector the
`embeddingClause` stays empty and the stored vector is left as it was. -/
def updateCase (db : List CaseRecord) (caseId : String) (body : CaseRecord)
    (embedOf : String → Except String Vec) : Nat × List CaseRecord :=
  if db.any (fun r => r.case_id = caseId) then
    let newEmb : Option Vec → Option Vec := fun old =>
      match embedOf (buildCaseEmbeddingText { body with case_id := caseId }) with
      | Except.ok v => if 0 < v.length then some v else old
      | Except.error _ => old
    (200, db.map (fun r => if r.case_id = caseId then applyUpdate body newEmb r else r))
  else (404, db)

/-! ## `chatHandler` (`chat.ts` lines 31-209) -/

/-- Observable outcome of one chat request: status, assistant text, the
optional `sources` list, and one flag per downstream service recording
whether the handler reached the call to it. -/
structure ChatOutcome where
  status : Nat
  content : String
  sources : Option (List String)
  embedCalled : Bool
  retrieveCalled : Bool
  generateCalled : Bool
  deriving DecidableEq, Repr

/-- The `sources` computation (`chat.ts` lines 171-174):
`relevantCases.slice(0, 5).map(c => c.case_id).filter(Boolean)`. -/
def sourcesOf (cands : List CaseRecord) : List String :=
  ((cands.take 5).map (fun r => r.case_id)).filter (fun s => s ≠ "")

/-- The `sources` field of the response message (`chat.ts` line 181):
`sources.length > 0 ? sources : undefined`. -/
def responseSources (cands : List CaseRecord) : Option (List String) :=
  if 0 < (sourcesOf cands).length then some (sourcesOf cands) else none

/-- Value `queryEmbedding` as it stands after step 1 of `chatHandler`
(`chat.ts` lines 73-78): a thrown embedding call is caught and leaves the
initial `[]` in place. -/
def chatQueryEmbedding (embCfg : Bool) (embOuts : Nat → EmbAttempt) : Vec :=
  match generateEmbedding embCfg embOuts with
  | Except.ok v => v
  | Except.error _ => []

/-- Function `chatHandler` (`chat.ts` lines 31-209) after successful auth:
validation, query embedding, tiered retrieval, generation, and response
assembly. -/
def chatHandler (bodyMessage : Option String) (dist : Vec → Vec → ℚ)
    (fts : String → CaseRecord → Bool) (db : List CaseRecord) (env : RetEnv)
    (embCfg : Bool) (embOuts : Nat → EmbAttempt)
    (genCfg : Bool) (genOuts : Nat → GenAttempt) : ChatOutcome :=
  let userMessage := jsTrim (bodyMessage.getD "")
  if userMessage = "" then
    ⟨400, "Message is required.", none, false, false, false⟩
  else if MAX_MESSAGE_LENGTH < userMessage.length then
    ⟨400, "Message must be under 2000 characters.", none, false, false, false⟩
  else
    let ret := retrieve dist fts userMessage (chatQueryEmbedding embCfg embOuts) db env
    ⟨200, chatCompletion genCfg genOuts, responseSources ret.candidates, true, true, true⟩

/-! ## Concrete fixtures for witnesses and counterexamples -/

/-- A degenerate distance oracle. -/
def dist0 : Vec → Vec → ℚ := fun _ _ => 0

/-- A distance oracle under which every record is maximally dissimilar to
every query (cosine distance 2, i.e. similarity −1). -/
def distFar : Vec → Vec → ℚ := fun _ _ => 2

/-- A full-text oracle that matches nothing. -/
def fts0 : String → CaseRecord → Bool := fun _ _ => false

/-- A stored case that has an embedding. -/
def rec1 : CaseRecord :=
  { emptyCase with case_id := "CASE-1", embedding := some [1], created_at := 5 }

/-- A stored case without an embedding. -/
def rec2 : CaseRecord :=
  { emptyCase with case_id := "CASE-2", created_at := 9 }

/-! ## Helper lemmas -/

theorem length_insertLe (le : α → α → Bool) (a : α) (l : List α) :
    (insertLe le a l).length = l.length + 1 := by
  induction l with
  | nil => rfl
  | cons b t ih =>
    simp only [insertLe]
    split
    · simp
    · simp [ih]

theorem length_sortLe (le : α → α → Bool) (l : List α) :
    (sortLe le l).length = l.length := by
  induction l with
  | nil => rfl
  | cons a t ih => simp [sortLe, length_insertLe, ih]

theorem vectorQuery_ne_nil (dist : Vec → Vec → ℚ) (q : Vec) (db : List CaseRecord)
    (h : ∃ r ∈ db, r.embedding.isSome) : vectorQuery dist q db ≠ [] := by
  obtain ⟨r, hr, hemb⟩ := h
  have hmem : r ∈ db.filter (fun r => r.embedding.isSome) :=
    List.mem_filter.mpr ⟨hr, hemb⟩
  have hlen : 0 < (db.filter (fun r => r.embedding.isSome)).length :=
    List.length_pos.mpr (List.ne_nil_of_mem hmem)
  have : 0 < (vectorQuery dist q db).length := by
    simp only [vectorQuery, List.length_take, length_sortLe, TOP_K_CASES]
    omega
  exact List.ne_nil_of_length_pos this

theorem recencyQuery_ne_nil (db : List CaseRecord) (h : db ≠ []) :
    recencyQuery db ≠ [] := by
  have hlen : 0 < db.length := List.length_pos.mpr h
  have : 0 < (recencyQuery db).length := by
    simp only [recencyQuery, List.length_take, length_sortLe, TOP_K_CASES]
    omega
  exact List.ne_nil_of_length_pos this

/-! ## Claims -/

/-- Claim C5: a chat request whose trimmed query text is empty, or longer
than the fixed maximum of `MAX_MESSAGE_LENGTH = 2000` characters, is
answered with a 400 validation error immediately, and the handler never
reaches the embedding, retrieval or generation calls. -/
theorem chat_validation_rejects_early (bodyMessage : Option String)
    (dist : Vec → Vec → ℚ) (fts : String → CaseRecord → Bool)
    (db : List CaseRecord) (env : RetEnv) (embCfg : Bool) (embOuts : Nat → EmbAttempt)
    (genCfg : Bool) (genOuts : Nat → GenAttempt)
    (h : jsTrim (bodyMessage.getD "") = "" ∨
         MAX_MESSAGE_LENGTH < (jsTrim (bodyMessage.getD "")).length) :
    (chatHandler bodyMessage dist fts db env embCfg embOuts genCfg genOuts).status = 400
    ∧ (chatHandler bodyMessage dist fts db env embCfg embOuts genCfg genOuts).embedCalled = false
    ∧ (chatHandler bodyMessage dist fts db env embCfg embOuts genCfg genOuts).retrieveCalled = false
    ∧ (chatHandler bodyMessage dist fts db env embCfg embOuts genCfg genOuts).generateCalled
        = false := by
  unfold chatHandler
  rcases h with h | h
  · simp [h]
  · by_cases he : jsTrim (bodyMessage.getD "") = ""
    · simp [he]
    · simp [he, h]

/-- Witness for C5 at the concrete request body `{}` (missing message). -/
theorem chat_validation_rejects_early_witness :
    (chatHandler none dist0 fts0 [] ⟨true, true, true⟩ true (fun _ => EmbAttempt.rateLimited)
        true (fun _ => GenAttempt.rateLimited)).status = 400
    ∧ (chatHandler none dist0 fts0 [] ⟨true, true, true⟩ true (fun _ => EmbAttempt.rateLimited)
        true (fun _ => GenAttempt.rateLimited)).embedCalled = false
    ∧ (chatHandler none dist0 fts0 [] ⟨true, true, true⟩ true (fun _ => EmbAttempt.rateLimited)
        true (fun _ => GenAttempt.rateLimited)).retrieveCalled = false
    ∧ (chatHandler none dist0 fts0 [] ⟨true, true, true⟩ true (fun _ => EmbAttempt.rateLimited)
        true (fun _ => GenAttempt.rateLimited)).generateCalled = false :=
  chat_validation_rejects_early none dist0 fts0 [] ⟨true, true, true⟩ true
    (fun _ => EmbAttempt.rateLimited) true (fun _ => GenAttempt.rateLimited) (Or.inl rfl)

/-- Claim C9: the history handed to the generation model is
`conversationHistory.slice(-6)`: at most 6 turns, exactly the most
recent `min 6 n` of the `n` appended turns, dropped whole from the front
(a suffix of the full history), sandwiched between the system prompt and
the current user query. -/
theorem history_window_bounded (history : List (String × String)) (sys q : String) :
    (historyWindow history).length = min 6 history.length
    ∧ historyWindow history <:+ history
    ∧ chatMessages sys history q =
        ("system", sys) :: (historyWindow history ++ [("user", q)]) := by
  refine ⟨?_, ?_, rfl⟩
  · simp only [historyWindow, List.length_drop]
    omega
  · exact List.drop_suffix _ _

/-- Claim C1: the tiers run strictly in the order vector → keyword →
recency.  The vector query is issued iff the query embedding is
non-empty; a non-empty vector tier short-circuits the whole chain (the
keyword and recency queries are never issued); the keyword query is
issued only when the vector tier produced zero candidates or failed (and
the message is long enough for `plainto_tsquery`); the recency query is
issued only when both earlier tiers produced nothing. -/
theorem retrieval_tier_order (dist : Vec → Vec → ℚ) (fts : String → CaseRecord → Bool)
    (msg : String) (q : Vec) (db : List CaseRecord) (env : RetEnv) :
    ((retrieve dist fts msg q db env).vectorIssued = decide (0 < q.length))
    ∧ (tier1 dist q db env ≠ [] →
        retrieve dist fts msg q db env =
          ⟨tier1 dist q db env, Tier.vector, decide (0 < q.length), false, false⟩)
    ∧ ((retrieve dist fts msg q db env).keywordIssued = true →
        tier1 dist q db env = [] ∧ 2 < msg.length)
    ∧ ((retrieve dist fts msg q db env).recencyIssued = true →
        tier1 dist q db env = [] ∧ tier2 fts msg db env = []) := by
  by_cases h1 : tier1 dist q db env = []
  · by_cases h2 : tier2 fts msg db env = []
    · simp [retrieve, h1, h2]
    · simp [retrieve, h1, h2]
  · simp [retrieve, h1]

/-- Witness for C1: a one-record store with an embedded record and a
non-empty query vector stays entirely in the vector tier. -/
theorem retrieval_tier_order_witness :
    retrieve dist0 fts0 "hello" [1] [rec1] ⟨true, true, true⟩ =
      ⟨[rec1], Tier.vector, true, false, false⟩ := by
  have h := (retrieval_tier_order dist0 fts0 "hello" [1] [rec1] ⟨true, true, true⟩).2.1
    (by decide)
  rw [h]
  decide

/-- Claim C10: with a non-empty query embedding, a succeeding vector
query, and at least one stored record with a non-null embedding, the
candidates are exactly the `TOP_K_CASES` nearest records by the pgvector
distance — the hypothesis that every stored record is arbitrarily
dissimilar (similarity `1 − dist` below `SIMILARITY_THRESHOLD`) changes
nothing, because the declared threshold is never applied — so the keyword
and recency tiers are unreachable in that situation. -/
theorem vector_tier_unfiltered (dist : Vec → Vec → ℚ) (fts : String → CaseRecord → Bool)
    (msg : String) (q : Vec) (db : List CaseRecord) (env : RetEnv)
    (hq : 0 < q.length) (hok : env.vectorOk = true)
    (hsome : ∃ r ∈ db, r.embedding.isSome)
    (_hdissim : ∀ r ∈ db, 1 - recDist dist q r < SIMILARITY_THRESHOLD) :
    retrieve dist fts msg q db env =
      ⟨vectorQuery dist q db, Tier.vector, true, false, false⟩ := by
  have h1 : tier1 dist q db env = vectorQuery dist q db := by
    simp [tier1, hq, hok]
  have hne := vectorQuery_ne_nil dist q db hsome
  rw [← h1] at hne
  have h := (retrieval_tier_order dist fts msg q db env).2.1 hne
  rw [h, h1]
  simp [hq]

/-- Witness for C10: under a distance oracle making every record
maximally dissimilar (similarity −1 < 0.8), the single embedded record is
still returned by the vector tier. -/
theorem vector_tier_unfiltered_witness :
    retrieve distFar fts0 "hello" [1] [rec1] ⟨true, true, true⟩ =
      ⟨[rec1], Tier.vector, true, false, false⟩ := by
  have h := vector_tier_unfiltered distFar fts0 "hello" [1] [rec1] ⟨true, true, true⟩
    (by decide) rfl ⟨rec1, by decide, by decide⟩ (by
      intro r hr
      simp only [List.mem_singleton] at hr
      subst hr
      have hd : recDist distFar [1] rec1 = 2 := rfl
      rw [hd]
      norm_num [SIMILARITY_THRESHOLD])
  rw [h]
  decide

/-- Claim C7: when the vector tier and the keyword tier both contributed
zero candidates, and the recency query succeeds on a non-empty store,
retrieval returns exactly the `TOP_K_CASES = 10` most recently created
records (`ORDER BY created_at DESC LIMIT 10`), with provenance tag
`recency`. -/
theorem recency_tier_exact (dist : Vec → Vec → ℚ) (fts : String → CaseRecord → Bool)
    (msg : String) (q : Vec) (db : List CaseRecord) (env : RetEnv)
    (h1 : tier1 dist q db env = []) (h2 : tier2 fts msg db env = [])
    (hok : env.recencyOk = true) (hdb : db ≠ []) :
    retrieve dist fts msg q db env =
      ⟨recencyQuery db, Tier.recency, decide (0 < q.length), decide (2 < msg.length),
        true⟩ := by
  have h3 : tier3 db env = recencyQuery db := by simp [tier3, hok]
  have hne := recencyQuery_ne_nil db hdb
  simp [retrieve, h1, h2, h3, hne]

/-- Witness for C7: an absent query vector and a too-short message leave
both early tiers empty, and the single stored record comes back tagged
`recency`. -/
theorem recency_tier_exact_witness :
    retrieve dist0 fts0 "hi" [] [rec2] ⟨true, true, true⟩ =
      ⟨[rec2], Tier.recency, false, false, true⟩ := by
  have h := recency_tier_exact dist0 fts0 "hi" [] [rec2] ⟨true, true, true⟩
    (by decide) (by decide) rfl (by decide)
  rw [h]
  decide

/-- Claim C6: when the retrieved candidates have pairwise-distinct,
non-empty identifiers (the `cases.case_id` column is `UNIQUE NOT NULL`
and validated non-empty on create), the cited sources are exactly the
deduplicated, order-preserving identifiers of the first 5 candidates —
so at most 5 entries and no duplicates — and the `sources` field is
omitted from the response exactly when there were zero candidates. -/
theorem citations_dedup_bounded (cands : List CaseRecord)
    (hnodup : (cands.map (fun r => r.case_id)).Nodup)
    (hne : ∀ r ∈ cands, r.case_id ≠ "") :
    sourcesOf cands = ((cands.take 5).map (fun r => r.case_id)).dedup
    ∧ (sourcesOf cands).length ≤ 5
    ∧ (sourcesOf cands).Nodup
    ∧ (responseSources cands = none ↔ cands = []) := by
  have hsub : List.Sublist ((cands.take 5).map (fun r => r.case_id))
      (cands.map (fun r => r.case_id)) :=
    (List.take_sublist 5 cands).map _
  have hnodup5 : ((cands.take 5).map (fun r => r.case_id)).Nodup := hnodup.sublist hsub
  have hall : ∀ s ∈ (cands.take 5).map (fun r => r.case_id), s ≠ "" := by
    intro s hs
    obtain ⟨r, hr, rfl⟩ := List.mem_map.mp hs
    exact hne r (List.mem_of_mem_take hr)
  have hfilter : sourcesOf cands = (cands.take 5).map (fun r => r.case_id) := by
    unfold sourcesOf
    rw [List.filter_eq_self.mpr]
    intro a ha
    simpa using hall a ha
  refine ⟨?_, ?_, ?_, ?_⟩
  · rw [hfilter, List.dedup_eq_self.mpr hnodup5]
  · rw [hfilter]
    simp only [List.length_map, List.length_take]
    omega
  · rw [hfilter]; exact hnodup5
  · unfold responseSources
    constructor
    · intro hnone
      by_contra hc
      obtain ⟨r, t, rfl⟩ := List.exists_cons_of_ne_nil hc
      have : 0 < (sourcesOf (r :: t)).length := by
        rw [hfilter]
        simp
      simp [this] at hnone
    · intro hc
      subst hc
      simp [sourcesOf]

/-- Witness for C6 on a concrete two-record candidate list. -/
theorem citations_dedup_bounded_witness :
    sourcesOf [rec1, rec2] = (([rec1, rec2].take 5).map (fun r => r.case_id)).dedup
    ∧ (sourcesOf [rec1, rec2]).length ≤ 5
    ∧ (sourcesOf [rec1, rec2]).Nodup
    ∧ (responseSources [rec1, rec2] = none ↔ ([rec1, rec2] : List CaseRecord) = []) :=
  citations_dedup_bounded [rec1, rec2] (by decide) (by decide)

/-- Appending to a non-empty string stays non-empty. -/
theorem string_append_ne_empty (l v : String) (hl : l ≠ "") : l ++ v ≠ "" := by
  intro hc
  apply hl
  have hlen := congrArg String.length hc
  rw [String.length_append] at hlen
  have h0 : l.length = 0 := by
    have : String.length "" = 0 := rfl
    omega
  obtain ⟨d⟩ := l
  have hd : d = [] := List.length_eq_zero.mp h0
  subst hd
  rfl

theorem filter_keep (p : String → Bool) (a : String) (l : List String) (h : p a = true) :
    (a :: l).filter p = a :: l.filter p := by
  simp [List.filter_cons, h]

theorem filter_drop (p : String → Bool) (a : String) (l : List String) (h : p a = false) :
    (a :: l).filter p = l.filter p := by
  simp [List.filter_cons, h]

/-- The output of `buildCaseEmbeddingText` contains the given label
followed by an empty value: either `"Label: ."` occurs inside it (an
empty value before the `". "` join separator) or it ends in a bare
`"Label: "`. -/
def labelWithEmptyValue (out label : String) : Prop :=
  (label ++ ": .").toList <:+: out.toList ∨ (label ++ ": ").toList <:+ out.toList

/-- Counterexample to claim C8: on a record whose fields are all empty
(every JS body field missing), `buildCaseEmbeddingText` emits the ten
unconditional labels with empty values — e.g. `"TA Name: "` directly
followed by the `"."` separator, and a trailing bare
`"Source of Resolution: "` — so the output does contain field labels
followed by empty values.  Only the five conditional fields are omitted
entirely. -/
theorem canonicalize_empty_label_counterexample :
    buildCaseEmbeddingText emptyCase =
      "Case ID: . TA Name: . Case Type: . Issue Type: . FQR Accurate: . FQR Help Resolve: . Idle Over 8 Hours: No. Case Complexity: . ICM Linked: No. Source of Resolution: "
    ∧ labelWithEmptyValue (buildCaseEmbeddingText emptyCase) "TA Name"
    ∧ labelWithEmptyValue (buildCaseEmbeddingText emptyCase) "Source of Resolution"
    ∧ emptyCase.ta_name = "" := by
  refine ⟨rfl, Or.inl (by decide), Or.inr (by decide), rfl⟩

/-- Claim C8 as amended: canonicalization is a pure function producing a
deterministic field-labelled join in which only the five conditional
fields (Idleness Reason, Collab Wait Reason, PG Wait Reason, Reviewer
Notes, SNA) are omitted entirely when empty; the ten unconditional
labels are always emitted, with an empty value when their field is
empty. -/
theorem canonicalize_conditional_omission (c : CaseRecord)
    (h1 : c.idleness_reason = "") (h2 : c.collab_wait_reason = "")
    (h3 : c.pg_wait_reason = "") (h4 : c.ta_reviewer_notes = "")
    (h5 : c.next_action_sna = "") :
    (caseEmbeddingParts c).filter (fun p => p ≠ "") =
      [ "Case ID: " ++ c.case_id,
        "TA Name: " ++ c.ta_name,
        "Case Type: " ++ c.case_type,
        "Issue Type: " ++ c.issue_type,
        "FQR Accurate: " ++ c.fqr_accurate,
        "FQR Help Resolve: " ++ c.fqr_help_resolve,
        "Idle Over 8 Hours: " ++ (if c.idle_over_8_hours then "Yes" else "No"),
        "Case Complexity: " ++ c.case_complexity,
        "ICM Linked: " ++ (if c.icm_linked then "Yes" else "No"),
        "Source of Resolution: " ++ c.source_of_resolution ]
    ∧ buildCaseEmbeddingText c =
        String.intercalate ". " ((caseEmbeddingParts c).filter (fun p => p ≠ "")) := by
  refine ⟨?_, rfl⟩
  have hp : ∀ (l v : String), l ≠ "" → (decide ¬(l ++ v = "")) = true := fun l v hl =>
    decide_eq_true (string_append_ne_empty l v hl)
  simp only [caseEmbeddingParts, h1, h2, h3, h4, h5, ne_eq, not_true_eq_false,
    if_false, ite_false]
  rw [filter_keep _ _ _ (hp _ _ (by decide)), filter_keep _ _ _ (hp _ _ (by decide)),
    filter_keep _ _ _ (hp _ _ (by decide)), filter_keep _ _ _ (hp _ _ (by decide)),
    filter_keep _ _ _ (hp _ _ (by decide)), filter_keep _ _ _ (hp _ _ (by decide)),
    filter_keep _ _ _ (hp _ _ (by decide)), filter_drop _ _ _ (by decide),
    filter_drop _ _ _ (by decide), filter_drop _ _ _ (by decide),
    filter_keep _ _ _ (hp _ _ (by decide)), filter_keep _ _ _ (hp _ _ (by decide)),
    filter_keep _ _ _ (hp _ _ (by decide)), filter_drop _ _ _ (by decide),
    filter_drop _ _ _ (by decide)]
  rfl

/-- Witness for the amended C8 at the all-empty record. -/
theorem canonicalize_conditional_omission_witness :
    (caseEmbeddingParts emptyCase).filter (fun p => p ≠ "") =
      [ "Case ID: " ++ emptyCase.case_id,
        "TA Name: " ++ emptyCase.ta_name,
        "Case Type: " ++ emptyCase.case_type,
        "Issue Type: " ++ emptyCase.issue_type,
        "FQR Accurate: " ++ emptyCase.fqr_accurate,
        "FQR Help Resolve: " ++ emptyCase.fqr_help_resolve,
        "Idle Over 8 Hours: " ++ (if emptyCase.idle_over_8_hours then "Yes" else "No"),
        "Case Complexity: " ++ emptyCase.case_complexity,
        "ICM Linked: " ++ (if emptyCase.icm_linked then "Yes" else "No"),
        "Source of Resolution: " ++ emptyCase.source_of_resolution ]
    ∧ buildCaseEmbeddingText emptyCase =
        String.intercalate ". " ((caseEmbeddingParts emptyCase).filter (fun p => p ≠ "")) :=
  canonicalize_conditional_omission emptyCase rfl rfl rfl rfl rfl

/-- A stored case holding a pre-update embedding vector. -/
def recV : CaseRecord :=
  { emptyCase with case_id := "CASE-9", embedding := some [1], created_at := 1 }

/-- An update body with changed classification fields. -/
def bodyU : CaseRecord := { emptyCase with issue_type := "Networking" }

/-- Counterexample to claim C3: updating `CASE-9` while embedding
regeneration throws leaves the update itself successful (200) but keeps
the pre-update vector `some [1]` in place — the stale vector is silently
retained, not cleared or left absent. -/
theorem update_stale_vector_counterexample :
    (updateCase [recV] "CASE-9" bodyU (fun _ => Except.error "boom")).1 = 200
    ∧ (updateCase [recV] "CASE-9" bodyU (fun _ => Except.error "boom")).2 =
        [{ bodyU with case_id := "CASE-9", created_at := 1, embedding := some [1] }]
    ∧ recV.embedding = some [1] := by
  refine ⟨rfl, by decide, rfl⟩

/-- Claim C3 as amended: on update the embedding is regenerated from the
canonical text of the *updated* field values, and when regeneration
succeeds with a non-empty vector the stored vector is replaced by it;
but when regeneration throws, or returns the empty vector, the
`embedding` column is simply not written, so the previously stored
(possibly stale) vector is silently retained rather than cleared. -/
theorem update_embedding_regeneration (db : List CaseRecord) (caseId : String)
    (body : CaseRecord) (embedOf : String → Except String Vec)
    (hex : db.any (fun r => r.case_id = caseId) = true) :
    (updateCase db caseId body embedOf).1 = 200
    ∧ (∀ v, embedOf (buildCaseEmbeddingText { body with case_id := caseId }) =
          Except.ok v → 0 < v.length →
        (updateCase db caseId body embedOf).2 = db.map (fun r =>
          if r.case_id = caseId then
            { body with
              case_id := r.case_id
              created_at := r.created_at
              embedding := some v }
          else r))
    ∧ (∀ e, embedOf (buildCaseEmbeddingText { body with case_id := caseId }) =
          Except.error e →
        (updateCase db caseId body embedOf).2 = db.map (fun r =>
          if r.case_id = caseId then
            { body with
              case_id := r.case_id
              created_at := r.created_at
              embedding := r.embedding }
          else r))
    ∧ (embedOf (buildCaseEmbeddingText { body with case_id := caseId }) =
          Except.ok [] →
        (updateCase db caseId body embedOf).2 = db.map (fun r =>
          if r.case_id = caseId then
            { body with
              case_id := r.case_id
              created_at := r.created_at
              embedding := r.embedding }
          else r)) := by
  refine ⟨?_, ?_, ?_, ?_⟩
  · simp [updateCase, hex]
  · intro v hv hlen
    simp [updateCase, hex, hv, hlen, applyUpdate]
  · intro e he
    simp [updateCase, hex, he, applyUpdate]
  · intro he
    simp [updateCase, hex, he, applyUpdate]

/-- Witness for the amended C3: the concrete failing-regeneration update
returns 200 and maps the stored row keeping its old vector. -/
theorem update_embedding_regeneration_witness :
    (updateCase [recV] "CASE-9" bodyU (fun _ => Except.error "x")).1 = 200
    ∧ (updateCase [recV] "CASE-9" bodyU (fun _ => Except.error "x")).2 =
        [recV].map (fun r =>
          if r.case_id = "CASE-9" then
            { bodyU with
              case_id := r.case_id
              created_at := r.created_at
              embedding := r.embedding }
          else r) := by
  have h := update_embedding_regeneration [recV] "CASE-9" bodyU
    (fun _ => Except.error "x") (by decide)
  exact ⟨h.1, h.2.2.1 "x" rfl⟩

/-- Counterexample to claim C2: a terminal (non-rate-limit) HTTP failure
— here a 400 on the very first attempt — is rethrown by
`generateEmbedding` to its caller (`throw error`, `openai.ts` line 135),
rather than being converted to the empty vector. -/
theorem embed_terminal_failure_counterexample :
    generateEmbedding true (fun _ => EmbAttempt.httpError 400 "bad request") =
      Except.error "Azure OpenAI embedding request failed (400)"
    ∧ generateEmbedding true (fun _ => EmbAttempt.netError "ENOTFOUND") =
      Except.error "ENOTFOUND" := ⟨rfl, rfl⟩

/-- One attempt outcome that keeps the embedding retry loop going
without returning and without throwing: a 429 (`openai.ts` lines
100-110), or a network error whose JS code is `ECONNRESET` or
`ETIMEDOUT` (lines 130-133). -/
def embAttemptRetries : EmbAttempt → Bool
  | EmbAttempt.rateLimited => true
  | EmbAttempt.netError code => code = "ECONNRESET" || code = "ETIMEDOUT"
  | _ => false

/-- The embedding retry loop degrades to the empty vector whenever every
attempt before the last only retried and the final attempt did not
succeed: a 429 on the final attempt exits the loop into the trailing
`return []` (`openai.ts` line 140), and a failure thrown there hits the
`attempt === MAX_RETRIES` branch, which also returns `[]` (lines
122-127). -/
theorem embedLoop_exhausts (outs : Nat → EmbAttempt)
    (hretry : ∀ i, 1 ≤ i → i < MAX_RETRIES → embAttemptRetries (outs i) = true)
    (hlast : ∀ v, outs MAX_RETRIES ≠ EmbAttempt.ok v) :
    ∀ fuel, fuel ≤ MAX_RETRIES → embedLoop outs fuel = Except.ok [] := by
  intro fuel
  induction fuel with
  | zero => exact fun _ => rfl
  | succ k ih =>
    intro hk
    have h5 : MAX_RETRIES = 5 := rfl
    by_cases hk0 : k = 0
    · subst hk0
      cases hout : outs MAX_RETRIES with
      | rateLimited => simp [embedLoop, hout]
      | ok v => exact absurd hout (hlast v)
      | httpError st b => simp [embedLoop, hout]
      | netError code => simp [embedLoop, hout]
    · have h1 : 1 ≤ MAX_RETRIES - k := by omega
      have h2 : MAX_RETRIES - k < MAX_RETRIES := by omega
      have hr := hretry (MAX_RETRIES - k) h1 h2
      cases hout : outs (MAX_RETRIES - k) with
      | rateLimited =>
        simp only [embedLoop, hout]
        exact ih (by omega)
      | ok v =>
        rw [hout] at hr
        simp [embAttemptRetries] at hr
      | httpError st b =>
        rw [hout] at hr
        simp [embAttemptRetries] at hr
      | netError code =>
        rw [hout] at hr
        simp [embAttemptRetries] at hr
        simp only [embedLoop, hout]
        rw [if_neg hk0, if_pos hr]
        exact ih (by omega)

/-- Claim C2 as amended: when `generateEmbedding` exhausts its retry
attempts — every attempt rate-limited or retryably network-failed, and
the final attempt anything but a success (another 429, a terminal HTTP
error, or any network error) — it returns the empty vector and raises no
exception; a terminal failure before the final attempt, by contrast,
propagates as an exception — but `createCase` catches any embedding
outcome that is an exception or an empty vector and still persists the
record with a NULL embedding, returning 201. -/
theorem embed_exhaustion_absent (outs : Nat → EmbAttempt)
    (db : List CaseRecord) (s : String) (body : CaseRecord)
    (embedOf : String → Except String Vec) (now : Nat)
    (hretry : ∀ i, 1 ≤ i → i < MAX_RETRIES → embAttemptRetries (outs i) = true)
    (hlast : ∀ v, outs MAX_RETRIES ≠ EmbAttempt.ok v)
    (hid : jsTrim s ≠ "")
    (hdup : db.any (fun r => r.case_id = jsTrim s) = false)
    (hfail : (∃ e, embedOf (buildCaseEmbeddingText { body with case_id := s }) =
                Except.error e) ∨
             embedOf (buildCaseEmbeddingText { body with case_id := s }) =
                Except.ok []) :
    generateEmbedding true outs = Except.ok []
    ∧ createCase db (some s) body embedOf now =
        ⟨201, db ++ [{ body with
                        case_id := jsTrim s
                        embedding := none
                        created_at := now }]⟩ := by
  constructor
  · simpa [generateEmbedding] using embedLoop_exhausts outs hretry hlast MAX_RETRIES (le_refl _)
  · unfold createCase
    rcases hfail with ⟨e, he⟩ | he
    · simp [hid, hdup, he]
    · simp [hid, hdup, he]

/-- Attempt outcomes that rate-limit four times and then fail terminally
on the fifth, final attempt. -/
def outsFinalFail : Nat → EmbAttempt := fun i =>
  if i = 5 then EmbAttempt.httpError 500 "server error" else EmbAttempt.rateLimited

/-- Witness for the amended C2, exercising the final-attempt-failure
exhaustion mode: four 429s followed by a 500 on attempt 5 degrade to the
empty vector without raising, and a throwing embedding still yields a
201 create with a NULL vector. -/
theorem embed_exhaustion_absent_witness :
    generateEmbedding true outsFinalFail = Except.ok []
    ∧ createCase [] (some "X") emptyCase (fun _ => Except.error "boom") 7 =
        ⟨201, [] ++ [{ emptyCase with
                        case_id := jsTrim "X"
                        embedding := none
                        created_at := 7 }]⟩ :=
  embed_exhaustion_absent outsFinalFail [] "X" emptyCase
    (fun _ => Except.error "boom") 7
    (fun i _ h2 => by
      have hne : i ≠ 5 := by
        have h5 : MAX_RETRIES = 5 := rfl
        omega
      simp [outsFinalFail, embAttemptRetries, hne])
    (fun v => by simp [outsFinalFail, MAX_RETRIES])
    (by decide) (by decide) (Or.inl ⟨"boom", rfl⟩)

/-- Counterexample to claim C4: with a store whose recency tier yields a
candidate and a generation endpoint rate-limited on every attempt, the
answer does carry the fixed fallback text, but the response also carries
a citation list (`sources: ["CASE-2"]`) — and the two exhaustion paths
return two different fixed strings, not one. -/
theorem generation_exhaustion_counterexample :
    chatHandler (some "hi") dist0 fts0 [rec2] ⟨true, true, true⟩ false
        (fun _ => EmbAttempt.rateLimited) true (fun _ => GenAttempt.rateLimited) =
      ⟨200, APOLOGY_EXHAUSTED, some ["CASE-2"], true, true, true⟩
    ∧ chatCompletion true (fun _ => GenAttempt.failed "upstream 500 detail") = APOLOGY_ERROR
    ∧ APOLOGY_ERROR ≠ APOLOGY_EXHAUSTED := by
  refine ⟨by decide, rfl, by decide⟩

/-- Claim C4 as amended: when every generation attempt is rate-limited or
throws, `chatCompletion` returns one of two fixed apology strings —
`APOLOGY_ERROR` when the final attempt threw, `APOLOGY_EXHAUSTED` when
the loop ran out of rate-limited attempts — never an exception and never
text derived from the upstream error detail; the chat response then
carries that text as its content with status 200, and its citation list
is omitted exactly when the sources computed from the retrieval
candidates are empty (it is present when retrieval found candidates with
non-empty ids, even alongside the apology). -/
theorem generation_exhaustion_apology (outs : Nat → GenAttempt)
    (bodyMessage : Option String) (dist : Vec → Vec → ℚ)
    (fts : String → CaseRecord → Bool) (db : List CaseRecord) (env : RetEnv)
    (embCfg : Bool) (embOuts : Nat → EmbAttempt)
    (h : ∀ i, 1 ≤ i → i ≤ MAX_RETRIES →
        outs i = GenAttempt.rateLimited ∨ ∃ d, outs i = GenAttempt.failed d)
    (hmsg : jsTrim (bodyMessage.getD "") ≠ "")
    (hlen : (jsTrim (bodyMessage.getD "")).length ≤ MAX_MESSAGE_LENGTH) :
    (chatCompletion true outs = APOLOGY_ERROR ∨
      chatCompletion true outs = APOLOGY_EXHAUSTED)
    ∧ chatHandler bodyMessage dist fts db env embCfg embOuts true outs =
        ⟨200, chatCompletion true outs,
          responseSources (retrieve dist fts (jsTrim (bodyMessage.getD ""))
            (chatQueryEmbedding embCfg embOuts) db env).candidates,
          true, true, true⟩
    ∧ (∀ cs : List CaseRecord, responseSources cs = none ↔ sourcesOf cs = []) := by
  refine ⟨?_, ?_, ?_⟩
  · have h5 : MAX_RETRIES = 5 := rfl
    have key : ∀ fuel, fuel ≤ MAX_RETRIES →
        (chatLoop outs fuel = APOLOGY_ERROR ∨ chatLoop outs fuel = APOLOGY_EXHAUSTED) := by
      intro fuel
      induction fuel with
      | zero => exact fun _ => Or.inr rfl
      | succ k ih =>
        intro hk
        have hi1 : 1 ≤ MAX_RETRIES - k := by omega
        have hi2 : MAX_RETRIES - k ≤ MAX_RETRIES := by omega
        rcases h (MAX_RETRIES - k) hi1 hi2 with hrl | ⟨d, hd⟩
        · simp only [chatLoop, hrl]
          exact ih (by omega)
        · simp only [chatLoop, hd]
          by_cases hk0 : k = 0
          · subst hk0
            simp
          · simp only [hk0, if_false, ite_false]
            exact ih (by omega)
    exact key MAX_RETRIES (le_refl _)
  · unfold chatHandler
    simp [hmsg, Nat.not_lt.mpr hlen]
  · intro cs
    unfold responseSources
    constructor
    · intro hnone
      by_cases hc : 0 < (sourcesOf cs).length
      · simp [hc] at hnone
      · exact List.eq_nil_of_length_eq_zero (by omega)
    · intro hnil
      simp [hnil]

/-- Witness for the amended C4: all-rate-limited generation over an empty
store yields status 200, the rate-limit apology and no citations. -/
theorem generation_exhaustion_apology_witness :
    (chatCompletion true (fun _ => GenAttempt.rateLimited) = APOLOGY_ERROR ∨
      chatCompletion true (fun _ => GenAttempt.rateLimited) = APOLOGY_EXHAUSTED)
    ∧ chatHandler (some "hi") dist0 fts0 [] ⟨true, true, true⟩ false
        (fun _ => EmbAttempt.rateLimited) true (fun _ => GenAttempt.rateLimited) =
        ⟨200, chatCompletion true (fun _ => GenAttempt.rateLimited),
          responseSources (retrieve dist0 fts0 (jsTrim ((some "hi").getD ""))
            (chatQueryEmbedding false (fun _ => EmbAttempt.rateLimited)) [] ⟨true, true, true⟩).candidates,
          true, true, true⟩
    ∧ (∀ cs : List CaseRecord, responseSources cs = none ↔ sourcesOf cs = []) :=
  generation_exhaustion_apology (fun _ => GenAttempt.rateLimited) (some "hi") dist0 fts0 []
    ⟨true, true, true⟩ false (fun _ => EmbAttempt.rateLimited)
    (fun _ _ _ => Or.inl rfl) (by decide) (by decide)

end CxpCases
